import Mathlib

/-!
Verification of the claude-flow provider registry and Z.ai API client.

Shallow embedding of `src/config/provider-config.ts` (the `ProviderConfigManager`
class) and `src/api/zai-client.ts` (the `ZaiAPIClient` class), together with
proofs about the registry operations, the client's error classification,
API-key masking and stream processing.

Modelling conventions:
* A JavaScript object used as an ordered string-keyed map (`registry.providers`)
  is a `List (String × ProviderConfig)` in insertion order; `Object.entries`
  iterates that order, property lookup is first-match association lookup
  (`lookupEntry`), and an in-place update of one entry keeps its position.
* Floating-point tuning fields (`temperature`, `topP`) are never read by any
  operation modelled here (they are only copied wholesale), so they are not
  carried in the structures.
* File persistence (`saveConfiguration`) and logging are I/O side effects with
  no influence on the registry value; they are dropped.
* A `throw` in a manager method that happens before any mutation is modelled
  by `Except.error`: no successor registry is produced, so the manager's state
  is the unchanged original.
-/

namespace ClaudeFlow

/-- One configured AI backend, from `ProviderConfig` in
`src/config/provider-config.ts`. Fields never read by the operations under
verification (`temperature`, `maxTokens`, `topP`, `topK`, `systemPrompt`,
`timeout`, retry settings, `metadata`) are omitted — the code only copies them
along with the record. -/
structure ProviderConfig where
  name : String
  type : String
  apiKey : String
  apiUrl : Option String := none
  model : String
  enabled : Bool
  priority : Int
  capabilities : List String := []
deriving DecidableEq, Repr

/-- The `loadBalancing` sub-record of the registry. -/
structure LoadBalancing where
  enabled : Bool
  strategy : String
  weights : List (String × Int) := []
deriving DecidableEq, Repr

/-- The persisted `ProviderRegistry` structure: active provider name, the
insertion-ordered provider map, fallback order and load-balancing settings. -/
structure ProviderRegistry where
  activeProvider : String
  providers : List (String × ProviderConfig)
  fallbackOrder : List String := []
  loadBalancing : LoadBalancing := { enabled := false, strategy := "weighted" }
deriving DecidableEq, Repr

/-- Errors thrown by `ProviderConfigManager` methods. The source throws plain
`Error`s with messages `Provider X not found` / `Provider X is not enabled`;
the specification names these `NotFoundError` and `DisabledProviderError`. -/
inductive RegistryError where
  | notFound (name : String)
  | disabled (name : String)
deriving DecidableEq, Repr

deriving instance DecidableEq for Except

/-- First entry of the association list with the given key (keys are unique in
a JavaScript object, so this is plain property access). -/
def lookupEntry (ps : List (String × ProviderConfig)) (name : String) : Option ProviderConfig :=
  match ps with
  | [] => none
  | e :: rest => if e.1 = name then some e.2 else lookupEntry rest name

/-- Property lookup `this.registry.providers[name]` in the provider map. -/
def lookupProvider (r : ProviderRegistry) (name : String) : Option ProviderConfig :=
  lookupEntry r.providers name

/-- In-place update of the entry keyed `name` (position and other entries
preserved), as in `this.registry.providers[name].field = v`. -/
def updateProvider (ps : List (String × ProviderConfig)) (name : String)
    (f : ProviderConfig → ProviderConfig) : List (String × ProviderConfig) :=
  ps.map fun e => if e.1 = name then (e.1, f e.2) else e

/-- Model of `Object.entries(this.registry.providers).filter(([, p]) => p.enabled)`. -/
def enabledEntries (ps : List (String × ProviderConfig)) : List (String × ProviderConfig) :=
  ps.filter fun e => e.2.enabled

/-- Head of `.sort(([, a], [, b]) => b.priority - a.priority)[0]`: JavaScript's
sort is stable, so the head of the descending sort is the first entry of the
list whose priority is maximal. This function returns exactly that entry. -/
def firstMaxPriority : List (String × ProviderConfig) → Option (String × ProviderConfig)
  | [] => none
  | e :: rest =>
    match firstMaxPriority rest with
    | none => some e
    | some best => if best.2.priority > e.2.priority then some best else some e

/-- The first pass of `validateProviders` (lines 570–575): every provider that
is `enabled` with a falsy (empty) `apiKey` is downgraded to `enabled = false`. -/
def disableKeyless (ps : List (String × ProviderConfig)) : List (String × ProviderConfig) :=
  ps.map fun e =>
    if e.2.enabled ∧ e.2.apiKey = "" then (e.1, { e.2 with enabled := false }) else e

/-- Model of `validateProviders` (lines 569–592): downgrade keyless enabled providers,
then, if the active provider is absent or not enabled, switch to the
highest-priority enabled provider; when no provider is enabled the source only
logs a warning and leaves `activeProvider` untouched. -/
def validateProviders (r : ProviderRegistry) : ProviderRegistry :=
  let r1 : ProviderRegistry := { r with providers := disableKeyless r.providers }
  match lookupProvider r1 r1.activeProvider with
  | some p =>
    if p.enabled then r1
    else
      match firstMaxPriority (enabledEntries r1.providers) with
      | some e => { r1 with activeProvider := e.1 }
      | none => r1
  | none =>
    match firstMaxPriority (enabledEntries r1.providers) with
    | some e => { r1 with activeProvider := e.1 }
    | none => r1

/-- Model of `setProviderApiKey` (lines 597–607): unknown name throws `NotFoundError`;
otherwise the key is stored and the provider is unconditionally enabled. -/
def setProviderApiKey (r : ProviderRegistry) (name key : String) :
    Except RegistryError ProviderRegistry :=
  match lookupProvider r name with
  | none => .error (.notFound name)
  | some _ =>
    .ok { r with providers :=
      updateProvider r.providers name fun p => { p with apiKey := key, enabled := true } }

/-- Model of `setActiveProvider` (lines 612–624): `NotFoundError` if absent,
`DisabledProviderError` if not enabled, otherwise set and persist. Both throws
occur before any mutation. -/
def setActiveProvider (r : ProviderRegistry) (name : String) :
    Except RegistryError ProviderRegistry :=
  match lookupProvider r name with
  | none => .error (.notFound name)
  | some p =>
    if p.enabled then .ok { r with activeProvider := name }
    else .error (.disabled name)

/-- Model of `getActiveProvider` (lines 629–632):
`provider && provider.enabled ? provider : null`. -/
def getActiveProvider (r : ProviderRegistry) : Option ProviderConfig :=
  match lookupProvider r r.activeProvider with
  | some p => if p.enabled then some p else none
  | none => none

/-- Model of `toggleProvider` (lines 692–714): set the flag; if the active provider was
just disabled, re-select the highest-priority enabled provider, or set
`activeProvider` to the empty string when none remains enabled. -/
def toggleProvider (r : ProviderRegistry) (name : String) (enabled : Bool) :
    Except RegistryError ProviderRegistry :=
  match lookupProvider r name with
  | none => .error (.notFound name)
  | some _ =>
    let r1 : ProviderRegistry :=
      { r with providers := updateProvider r.providers name fun p => { p with enabled := enabled } }
    if enabled = false ∧ r.activeProvider = name then
      match firstMaxPriority (enabledEntries r1.providers) with
      | some e => .ok { r1 with activeProvider := e.1 }
      | none => .ok { r1 with activeProvider := "" }
    else .ok r1

/-- Model of `exportConfiguration` (lines 787–789): `JSON.parse(JSON.stringify(reg))` is
a deep structural copy, i.e. the identity on the registry value. -/
def exportConfiguration (r : ProviderRegistry) : ProviderRegistry := r

/-- Model of `importConfiguration` (lines 794–799): install the given registry, re-run
`validateProviders`, persist. The resulting manager state is the validated
registry. -/
def importConfiguration (r : ProviderRegistry) : ProviderRegistry :=
  validateProviders r

/-! The Z.ai API client, from `src/api/zai-client.ts`. -/

/-- One chat message, from `ZaiMessage`. -/
structure ZaiMessage where
  role : String
  content : String
deriving DecidableEq, Repr

/-- The request body built by `sendMessage` / `sendStreamingMessage`
(`ZaiRequest`). The floating-point sampling fields (`temperature`, `top_p`)
are copied from the configuration and never branched on; they are omitted. -/
structure ZaiRequest where
  model : String
  messages : List ZaiMessage
  max_tokens : Nat
  stream : Bool
deriving DecidableEq, Repr

/-- A non-streaming completion (`ZaiResponse`), reduced to the fields the
modelled code hands back unchanged. -/
structure ZaiResponse where
  id : String
  model : String
  content : String
deriving DecidableEq, Repr

/-- One streamed chunk (`ZaiStreamEvent`): delta role/content and an optional
finish reason. -/
structure ZaiStreamEvent where
  id : String
  model : String
  deltaRole : Option String := none
  deltaContent : Option String := none
  finishReason : Option String := none
deriving DecidableEq, Repr

/-- Client configuration (`ZaiAPIConfig`), restricted to the fields read by the
operations under verification; the floating-point `temperature` and `topP` and
the circuit-breaker/health-check tunables are carried by the same object but
never branched on by `sendMessage`, `handleAPIError` or `getConfig`'s masking,
so they are represented by `maxTokens`/`timeout` alone on the numeric side. -/
structure ZaiAPIConfig where
  apiKey : String
  apiUrl : String := "https://api.z.ai/v1/chat/completions"
  model : String := "glm-4.5"
  systemPrompt : Option String := none
  maxTokens : Nat := 4096
  timeout : Nat := 60000
deriving DecidableEq, Repr

/-- A raw transport-level failure as seen by `handleAPIError`: the thrown
error's `name`, `message` and optional `code`. -/
structure TransportError where
  name : String
  message : String
  code : Option String := none
deriving DecidableEq, Repr

/-- The typed error taxonomy of `claude-api-errors.ts` as produced by
`handleAPIError`. -/
inductive APIError where
  | timeoutError (msg : String)
  | authenticationError (msg : String)
  | rateLimitError (msg : String)
  | internalServerError (msg : String)
  | validationError (msg : String)
  | networkError (msg : String)
  | apiError (msg : String)
deriving DecidableEq, Repr

/-- Whether `needle` occurs as a contiguous substring of `hay`
(JavaScript `hay.includes(needle)`), on the character lists. -/
def charsContain (hay needle : List Char) : Bool :=
  needle.isPrefixOf hay ||
    match hay with
    | [] => false
    | _ :: t => charsContain t needle

/-- String form of `charsContain`: `message.includes(needle)`. -/
def containsSub (hay needle : String) : Bool :=
  charsContain hay.toList needle.toList

/-- Model of `handleAPIError` (lines 354–382): a priority chain of string matches on the
thrown error, producing exactly one typed API error. -/
def handleAPIError (e : TransportError) : APIError :=
  if e.name = "AbortError" then
    .timeoutError "Request timed out"
  else if containsSub e.message "401" || containsSub e.message "unauthorized" then
    .authenticationError "Invalid Z.ai API key"
  else if containsSub e.message "429" || containsSub e.message "rate limit" then
    .rateLimitError "Z.ai API rate limit exceeded"
  else if containsSub e.message "500" || containsSub e.message "502" || containsSub e.message "503" then
    .internalServerError "Z.ai API server error"
  else if containsSub e.message "400" || containsSub e.message "bad request" then
    .validationError "Invalid request to Z.ai API"
  else if e.code = some "ECONNREFUSED" ∨ e.code = some "ENOTFOUND" then
    .networkError "Cannot connect to Z.ai API"
  else
    .apiError ("Z.ai API error: " ++ e.message)

/-- Model of `sendMessage` (lines 165–204). The HTTP layer (circuit breaker plus
`fetch` in `makeRequest`) is abstracted as the `transport` argument; the
second component of the result records whether `transport` was invoked.
An empty `apiKey` (falsy in `if (!this.config.apiKey)`) throws
`AuthenticationError` before the request is built or sent; a transport
failure is classified by `handleAPIError` and re-thrown. -/
def sendMessage (cfg : ZaiAPIConfig) (messages : List ZaiMessage)
    (transport : ZaiRequest → Except TransportError ZaiResponse) :
    Except APIError ZaiResponse × Bool :=
  if cfg.apiKey = "" then
    (.error (.authenticationError "Z.ai API key is required"), false)
  else
    let request : ZaiRequest :=
      { model := cfg.model, messages := messages, max_tokens := cfg.maxTokens, stream := false }
    match transport request with
    | .ok resp => (.ok resp, true)
    | .error e => (.error (handleAPIError e), true)

/-- Payload extraction: the `line.startsWith('data: ')` test and `line.slice(6)`
payload extraction of `makeStreamingRequest` (lines 328–330), on the character
list (the prefix is ASCII, so code-unit indexing and character indexing
agree). -/
def dataPayload (line : String) : Option String :=
  if "data: ".toList.isPrefixOf line.toList
  then some (String.mk (line.toList.drop 6)) else none

/-- The per-line loop of `makeStreamingRequest` (lines 328–340), with the JSON
parser abstracted as `parse` (`JSON.parse` returning a chunk, or failing).
Returns the chunks delivered to `onChunk`, in order. A line that is not a
`data: ` line is ignored; the payload `[DONE]` returns from the whole request
(no further lines are processed, no error); a payload that fails to parse is
logged and skipped. The function is total: line processing itself never
raises. -/
def processLines (parse : String → Option ZaiStreamEvent) :
    List String → List ZaiStreamEvent
  | [] => []
  | line :: rest =>
    match dataPayload line with
    | none => processLines parse rest
    | some data =>
      if data = "[DONE]" then []
      else
        match parse data with
        | some ev => ev :: processLines parse rest
        | none => processLines parse rest

/-- The shape returned by `getConfig` (lines 481–487): all configuration
fields with `apiKey` replaced by the masked placeholder, or dropped
(`undefined`) when the key was empty. -/
structure MaskedConfig where
  apiKey : Option String
  apiUrl : String
  model : String
  systemPrompt : Option String
  maxTokens : Nat
  timeout : Nat
deriving DecidableEq, Repr

/-- Model of `getConfig` (lines 481–487):
`apiKey: apiKey ? '****...****' : undefined` over the spread of the
remaining configuration fields. -/
def getConfig (cfg : ZaiAPIConfig) : MaskedConfig :=
  { apiKey := if cfg.apiKey = "" then none else some "****...****"
    apiUrl := cfg.apiUrl
    model := cfg.model
    systemPrompt := cfg.systemPrompt
    maxTokens := cfg.maxTokens
    timeout := cfg.timeout }

/-- Every string occurring in the object returned by `getConfig` (the
"output" of the accessor, as it would be serialised). -/
def maskedStrings (m : MaskedConfig) : List String :=
  (match m.apiKey with | some k => [k] | none => []) ++
    [m.apiUrl, m.model] ++
    (match m.systemPrompt with | some s => [s] | none => [])

/-! Specification-side predicates and concrete inputs used by the theorems. -/

/-- Specification-side description of the re-selection policy, over the list of
still-enabled entries in iteration order: the new active name is carried by the
first entry of maximal priority (highest priority wins, ties broken by
iteration order), or is the empty string when no entry remains enabled. -/
def ReselectedActive (enabledPs : List (String × ProviderConfig)) (active : String) : Prop :=
  (enabledPs = [] ∧ active = "") ∨
  ∃ i, ∃ hi : i < enabledPs.length,
    (enabledPs.get ⟨i, hi⟩).1 = active ∧
    (∀ e ∈ enabledPs, e.2.priority ≤ (enabledPs.get ⟨i, hi⟩).2.priority) ∧
    ∀ j, ∀ hj : j < enabledPs.length, j < i →
      (enabledPs.get ⟨j, hj⟩).2.priority < (enabledPs.get ⟨i, hi⟩).2.priority

/-- The validation invariants of the registry (spec section 3): an enabled
provider has a non-empty `apiKey`, and the active provider names an enabled
entry — unless no entry is enabled at all, in which case `validateProviders`
leaves `activeProvider` alone and any value is stable. -/
def RegistryInvariant (r : ProviderRegistry) : Prop :=
  (∀ e ∈ r.providers, e.2.enabled = true → ¬ e.2.apiKey = "") ∧
  ((lookupProvider r r.activeProvider).map (fun p => p.enabled) = some true ∨
    ∀ e ∈ r.providers, e.2.enabled = false)

/-- A disabled, keyless Z.ai provider — the state of the default `zai` entry
when the `ZAI_API_KEY` environment variable is not set. -/
def cfgZaiDisabled : ProviderConfig :=
  { name := "Z.ai GLM", type := "zai", apiKey := "", model := "glm-4.5",
    enabled := false, priority := 90 }

/-- A registry whose sole provider is disabled and keyless while still being
named by `activeProvider` — the state the default registry is in when no API
key environment variable is set. -/
def regAllDisabled : ProviderRegistry :=
  { activeProvider := "zai", providers := [("zai", cfgZaiDisabled)] }

/-- Provider `A` of the spec's toggle scenario: priority 90, enabled. -/
def cfgA : ProviderConfig :=
  { name := "A", type := "custom", apiKey := "key-a", model := "m",
    enabled := true, priority := 90 }

/-- Provider `B` of the spec's toggle scenario: priority 80, enabled. -/
def cfgB : ProviderConfig :=
  { name := "B", type := "custom", apiKey := "key-b", model := "m",
    enabled := true, priority := 80 }

/-- The spec scenario registry: providers `A` (90, enabled) and `B`
(80, enabled), active `A`. -/
def regAB : ProviderRegistry :=
  { activeProvider := "A", providers := [("A", cfgA), ("B", cfgB)] }

/-- A transport error whose message holds both an authentication and a
rate-limit marker: `handleAPIError` checks `401`/`unauthorized` first. -/
def errBothMarkers : TransportError :=
  { name := "Error", message := "HTTP 429: unauthorized", code := none }

/-- A client configuration whose API key is the single character `*`, which
occurs inside the masking placeholder itself. -/
def cfgStarKey : ZaiAPIConfig :=
  { apiKey := "*", apiUrl := "u", model := "m" }

/-- The registry `regAB` after `toggleProvider("A", false)`: `A` disabled in
place, active provider re-selected to `B`. -/
def regABToggled : ProviderRegistry :=
  { activeProvider := "B",
    providers := [("A", { cfgA with enabled := false }), ("B", cfgB)] }

/-- A client configuration with an empty API key. -/
def cfgEmptyKey : ZaiAPIConfig := { apiKey := "" }

/-- A transport stub; a `sendMessage` call with an empty key must never invoke
it. -/
def transportStub : ZaiRequest → Except TransportError ZaiResponse :=
  fun _ => .error { name := "Error", message := "ECONNREFUSED" }

/-- An aborted request, as produced when the timeout controller fires. -/
def errAbort : TransportError :=
  { name := "AbortError", message := "This operation was aborted" }

/-- A simulated HTTP 401 failure. -/
def errAuth : TransportError :=
  { name := "Error", message := "HTTP 401: unauthorized" }

/-- A simulated HTTP 429 failure. -/
def errRate : TransportError :=
  { name := "Error", message := "HTTP 429: Too Many Requests" }

/-- A realistic client configuration: the key shares no substring with the
masking placeholder, the API URL or the model name. -/
def cfgRealistic : ZaiAPIConfig := { apiKey := "sk-zai-test-12345" }

/-- A JSON parser stub that rejects every payload. -/
def parseNone : String → Option ZaiStreamEvent := fun _ => none

end ClaudeFlow

namespace ClaudeFlow

/-! Helper lemmas about the association-list and selection primitives. -/

/-- A successful lookup yields an entry of the list. -/
theorem mem_of_lookupEntry_eq_some {ps : List (String × ProviderConfig)} {a : String}
    {b : ProviderConfig} (h : lookupEntry ps a = some b) : (a, b) ∈ ps := by
  induction ps with
  | nil => simp [lookupEntry] at h
  | cons e rest ih =>
    rw [lookupEntry] at h
    by_cases hak : e.1 = a
    · rw [if_pos hak] at h
      injection h with hb
      subst hb
      have hab : (a, e.2) = e := by
        subst hak
        rfl
      rw [hab]
      exact List.mem_cons_self _ _
    · rw [if_neg hak] at h
      exact List.mem_cons_of_mem _ (ih h)

/-- Looking up the updated key after `updateProvider` sees the update. -/
theorem lookupEntry_updateProvider_self (ps : List (String × ProviderConfig)) (name : String)
    (f : ProviderConfig → ProviderConfig) :
    lookupEntry (updateProvider ps name f) name = (lookupEntry ps name).map f := by
  induction ps with
  | nil => simp [updateProvider, lookupEntry]
  | cons e rest ih =>
    by_cases hk : e.1 = name
    · simp [updateProvider, lookupEntry, hk]
    · simp [updateProvider, lookupEntry, hk] at ih ⊢
      exact ih

/-- Lookup after the key-validation pass applies the downgrade pointwise. -/
theorem lookupEntry_disableKeyless (ps : List (String × ProviderConfig)) (name : String) :
    lookupEntry (disableKeyless ps) name =
      (lookupEntry ps name).map
        (fun p => if p.enabled ∧ p.apiKey = "" then { p with enabled := false } else p) := by
  induction ps with
  | nil => simp [disableKeyless, lookupEntry]
  | cons e rest ih =>
    by_cases hk : e.1 = name
    · by_cases hv : e.2.enabled ∧ e.2.apiKey = ""
      · simp [disableKeyless, lookupEntry, hk, hv]
      · simp [disableKeyless, lookupEntry, hk, hv]
    · by_cases hv : e.2.enabled ∧ e.2.apiKey = ""
      · simp [disableKeyless, lookupEntry, hk, hv] at ih ⊢
        exact ih
      · simp [disableKeyless, lookupEntry, hk, hv] at ih ⊢
        exact ih

/-- The key-validation pass is the identity when every enabled provider holds
a non-empty key. -/
theorem disableKeyless_eq_self {ps : List (String × ProviderConfig)}
    (h : ∀ e ∈ ps, e.2.enabled = true → ¬ e.2.apiKey = "") : disableKeyless ps = ps := by
  induction ps with
  | nil => rfl
  | cons e rest ih =>
    have he : ¬ (e.2.enabled ∧ e.2.apiKey = "") := by
      rintro ⟨h1, h2⟩
      exact h e (List.mem_cons_self _ _) h1 h2
    have hrest : disableKeyless rest = rest :=
      ih fun x hx h1 h2 => h x (List.mem_cons_of_mem _ hx) h1 h2
    unfold disableKeyless at hrest ⊢
    rw [List.map_cons, if_neg he, hrest]

/-- With every provider disabled, the enabled filter is empty. -/
theorem enabledEntries_eq_nil {ps : List (String × ProviderConfig)}
    (h : ∀ e ∈ ps, e.2.enabled = false) : enabledEntries ps = [] := by
  unfold enabledEntries
  rw [List.filter_eq_nil_iff]
  intro a ha
  simp [h a ha]

/-- An empty selection means an empty candidate list. -/
theorem firstMaxPriority_eq_none {ps : List (String × ProviderConfig)}
    (h : firstMaxPriority ps = none) : ps = [] := by
  cases ps with
  | nil => rfl
  | cons e rest =>
    rw [firstMaxPriority] at h
    cases hr : firstMaxPriority rest with
    | none =>
      rw [hr] at h
      cases h
    | some best =>
      rw [hr] at h
      dsimp only at h
      split at h <;> cases h

/-- The selected entry is the first entry of maximal priority: it occurs at an
index `i`, no entry beats its priority, and every earlier entry has strictly
smaller priority. -/
theorem firstMaxPriority_spec {ps : List (String × ProviderConfig)}
    {m : String × ProviderConfig} (h : firstMaxPriority ps = some m) :
    ∃ i, ∃ hi : i < ps.length,
      ps.get ⟨i, hi⟩ = m ∧
      (∀ e ∈ ps, e.2.priority ≤ m.2.priority) ∧
      ∀ j, ∀ hj : j < ps.length, j < i → (ps.get ⟨j, hj⟩).2.priority < m.2.priority := by
  induction ps generalizing m with
  | nil => cases h
  | cons a rest ih =>
    rw [firstMaxPriority] at h
    cases hr : firstMaxPriority rest with
    | none =>
      rw [hr] at h
      dsimp only at h
      injection h with hm
      subst hm
      have hnil : rest = [] := firstMaxPriority_eq_none hr
      subst hnil
      refine ⟨0, by simp, rfl, ?_, ?_⟩
      · intro e he
        rcases List.mem_singleton.mp he with rfl
        exact le_refl _
      · intro j hj hji
        exact absurd hji (Nat.not_lt_zero j)
    | some best =>
      rw [hr] at h
      dsimp only at h
      by_cases hgt : best.2.priority > a.2.priority
      · rw [if_pos hgt] at h
        injection h with hm
        subst hm
        obtain ⟨i, hi, hget, hmax, hfirst⟩ := ih hr
        refine ⟨i + 1, by simpa using Nat.succ_lt_succ hi, ?_, ?_, ?_⟩
        · simpa using hget
        · intro e he
          rcases List.mem_cons.mp he with rfl | he
          · exact le_of_lt hgt
          · exact hmax e he
        · intro j hj hji
          cases j with
          | zero => simpa using hgt
          | succ j2 =>
            have hj2 : j2 < rest.length := by simpa using hj
            have := hfirst j2 hj2 (by omega)
            simpa using this
      · rw [if_neg hgt] at h
        injection h with hm
        subst hm
        obtain ⟨i, hi, hget, hmax, hfirst⟩ := ih hr
        refine ⟨0, by simp, rfl, ?_, ?_⟩
        · intro e he
          rcases List.mem_cons.mp he with rfl | he
          · exact le_refl _
          · calc e.2.priority ≤ best.2.priority := hmax e he
              _ ≤ a.2.priority := le_of_not_lt hgt
        · intro j hj hji
          exact absurd hji (Nat.not_lt_zero j)

/-- `validateProviders` only ever rewrites `activeProvider`; its provider map
is exactly the output of the key-validation pass. -/
theorem validateProviders_providers (r : ProviderRegistry) :
    (validateProviders r).providers = disableKeyless r.providers := by
  unfold validateProviders
  dsimp only
  split
  · split
    · rfl
    · split <;> rfl
  · split <;> rfl

/-- A registry with every provider disabled is a fixed point of
`validateProviders`: the source logs `No enabled providers found` and mutates
nothing. -/
theorem validateProviders_fixed_of_allDisabled (r : ProviderRegistry)
    (h : ∀ e ∈ r.providers, e.2.enabled = false) :
    validateProviders r = r := by
  have hdis : disableKeyless r.providers = r.providers := by
    apply disableKeyless_eq_self
    intro e he h1
    rw [h e he] at h1
    cases h1
  have hen : enabledEntries r.providers = [] := enabledEntries_eq_nil h
  simp only [validateProviders, lookupProvider, hdis, hen, firstMaxPriority]
  cases hl : lookupEntry r.providers r.activeProvider with
  | none => rfl
  | some p =>
    have hmem : (r.activeProvider, p) ∈ r.providers := mem_of_lookupEntry_eq_some hl
    have hp : p.enabled = false := h _ hmem
    simp [hp]

/-- A registry whose enabled providers all hold keys and whose active provider
is enabled is a fixed point of `validateProviders`. -/
theorem validateProviders_fixed_of_activeEnabled (r : ProviderRegistry) (p : ProviderConfig)
    (hkeys : ∀ e ∈ r.providers, e.2.enabled = true → ¬ e.2.apiKey = "")
    (hl : lookupProvider r r.activeProvider = some p)
    (hp : p.enabled = true) :
    validateProviders r = r := by
  have hdis : disableKeyless r.providers = r.providers := disableKeyless_eq_self hkeys
  have hl2 : lookupEntry r.providers r.activeProvider = some p := hl
  simp only [validateProviders, lookupProvider, hdis]
  rw [hl2]
  dsimp only
  rw [if_pos hp]

/-- Unfolding step: a line carrying the `[DONE]` sentinel returns from the
whole request with no chunk delivered. -/
theorem processLines_cons_done (parse : String → Option ZaiStreamEvent)
    (line : String) (rest : List String) (h : dataPayload line = some "[DONE]") :
    processLines parse (line :: rest) = [] := by
  rw [processLines, h]
  dsimp only
  rw [if_pos rfl]

/-- Unfolding step: a line that is not a `data: ` line is ignored. -/
theorem processLines_cons_noData (parse : String → Option ZaiStreamEvent)
    (line : String) (rest : List String) (h : dataPayload line = none) :
    processLines parse (line :: rest) = processLines parse rest := by
  rw [processLines, h]

/-- Unfolding step: a parsed chunk is delivered and processing continues. -/
theorem processLines_cons_parsed (parse : String → Option ZaiStreamEvent)
    (line d : String) (rest : List String) (ev : ZaiStreamEvent)
    (h : dataPayload line = some d) (hd : ¬ d = "[DONE]") (hp : parse d = some ev) :
    processLines parse (line :: rest) = ev :: processLines parse rest := by
  rw [processLines, h]
  dsimp only
  rw [if_neg hd, hp]

/-- Unfolding step: a malformed payload is skipped and processing continues. -/
theorem processLines_cons_badParse (parse : String → Option ZaiStreamEvent)
    (line d : String) (rest : List String)
    (h : dataPayload line = some d) (hd : ¬ d = "[DONE]") (hp : parse d = none) :
    processLines parse (line :: rest) = processLines parse rest := by
  rw [processLines, h]
  dsimp only
  rw [if_neg hd, hp]

end ClaudeFlow

namespace ClaudeFlow

/-! Claim C1. -/

/-- C1 counterexample: on a registry with no enabled provider (`activeProvider`
still naming the disabled default `zai`), `validateProviders` leaves
`activeProvider` as `zai` — it does not become the empty string as the claim
asserts. -/
theorem validateProviders_noEnabled_counterexample :
    (∀ e ∈ regAllDisabled.providers, e.2.enabled = false) ∧
    validateProviders regAllDisabled = regAllDisabled ∧
    (validateProviders regAllDisabled).activeProvider = "zai" ∧
    ¬ (validateProviders regAllDisabled).activeProvider = "" := by
  refine ⟨?_, ?_, ?_, ?_⟩ <;> decide

/-- C1 (amended): for every registry state in which no provider is enabled,
the load/validation repair (`validateProviders`, as invoked by `initialize`)
leaves the registry — in particular `activeProvider` — unchanged; it only logs
a warning and does not set `activeProvider` to the empty string. -/
theorem validateProviders_noEnabled_keeps_active (r : ProviderRegistry)
    (h : ∀ e ∈ r.providers, e.2.enabled = false) :
    validateProviders r = r :=
  validateProviders_fixed_of_allDisabled r h

/-- C1 witness: the amended statement at the concrete all-disabled registry. -/
theorem validateProviders_noEnabled_keeps_active_witness :
    (∀ e ∈ regAllDisabled.providers, e.2.enabled = false) ∧
    validateProviders regAllDisabled = regAllDisabled :=
  ⟨by decide, validateProviders_noEnabled_keeps_active regAllDisabled (by decide)⟩

/-! Claim C2. -/

/-- C2: if the provider named by `activeProvider` is present and enabled, then
`toggleProvider(activeProvider, false)` succeeds, disables exactly that entry
in place, and re-selects `activeProvider` as the first still-enabled entry of
maximal priority in iteration order (highest priority wins, ties broken by
insertion order), or the empty string when no provider remains enabled. -/
theorem toggleProvider_disable_active (r : ProviderRegistry) (p : ProviderConfig)
    (hl : lookupProvider r r.activeProvider = some p)
    (hp : p.enabled = true) :
    ∃ r2, toggleProvider r r.activeProvider false = .ok r2 ∧
      r2.providers =
        updateProvider r.providers r.activeProvider (fun q => { q with enabled := false }) ∧
      ReselectedActive (enabledEntries r2.providers) r2.activeProvider := by
  clear hp
  unfold toggleProvider
  rw [hl]
  dsimp only
  rw [if_pos ⟨rfl, rfl⟩]
  cases hm : firstMaxPriority (enabledEntries
      (updateProvider r.providers r.activeProvider fun q => { q with enabled := false })) with
  | some e =>
    refine ⟨_, rfl, rfl, ?_⟩
    right
    obtain ⟨i, hi, hget, hmax, hfirst⟩ := firstMaxPriority_spec hm
    refine ⟨i, hi, ?_, ?_, ?_⟩
    · rw [hget]
    · intro x hx
      rw [hget]
      exact hmax x hx
    · intro j hj hji
      rw [hget]
      exact hfirst j hj hji
  | none =>
    exact ⟨_, rfl, rfl, Or.inl ⟨firstMaxPriority_eq_none hm, rfl⟩⟩

/-- C2 witness: the spec scenario `{A: 90 enabled, B: 80 enabled}`, active `A`:
`toggleProvider("A", false)` yields `activeProvider = "B"`. -/
theorem toggleProvider_disable_active_witness :
    lookupProvider regAB regAB.activeProvider = some cfgA ∧
    cfgA.enabled = true ∧
    (∃ r2, toggleProvider regAB regAB.activeProvider false = .ok r2 ∧
      r2.providers =
        updateProvider regAB.providers regAB.activeProvider (fun q => { q with enabled := false }) ∧
      ReselectedActive (enabledEntries r2.providers) r2.activeProvider) ∧
    toggleProvider regAB "A" false = .ok regABToggled ∧
    regABToggled.activeProvider = "B" :=
  ⟨by decide, by decide,
    toggleProvider_disable_active regAB cfgA (by decide) (by decide),
    by decide, by decide⟩

end ClaudeFlow

namespace ClaudeFlow

/-! Claim C3. -/

/-- C3: `setActiveProvider(x)` fails with `NotFoundError` when `x` is absent,
and with `DisabledProviderError` when `x` is present but disabled; in the
error cases no successor registry is produced, so the manager's registry (in
particular `activeProvider`) is unchanged. -/
theorem setActiveProvider_error_cases (r : ProviderRegistry) (x : String) (p : ProviderConfig) :
    (lookupProvider r x = none → setActiveProvider r x = .error (.notFound x)) ∧
    (lookupProvider r x = some p → p.enabled = false →
      setActiveProvider r x = .error (.disabled x) ∧
      ∀ r2, setActiveProvider r x ≠ .ok r2) := by
  constructor
  · intro h
    unfold setActiveProvider
    rw [h]
  · intro h hp
    have hd : setActiveProvider r x = .error (.disabled x) := by
      unfold setActiveProvider
      rw [h]
      dsimp only
      rw [if_neg (by rw [hp]; exact Bool.false_ne_true)]
    exact ⟨hd, fun r2 hk => by rw [hd] at hk; cases hk⟩

/-- C3 witness: both error cases at concrete inputs — an absent name and the
present-but-disabled `zai` entry. -/
theorem setActiveProvider_error_cases_witness :
    lookupProvider regAllDisabled "ghost" = none ∧
    setActiveProvider regAllDisabled "ghost" = .error (.notFound "ghost") ∧
    lookupProvider regAllDisabled "zai" = some cfgZaiDisabled ∧
    cfgZaiDisabled.enabled = false ∧
    setActiveProvider regAllDisabled "zai" = .error (.disabled "zai") :=
  ⟨by decide,
    (setActiveProvider_error_cases regAllDisabled "ghost" cfgZaiDisabled).1 (by decide),
    by decide, by decide,
    ((setActiveProvider_error_cases regAllDisabled "zai" cfgZaiDisabled).2
      (by decide) (by decide)).1⟩

/-! Claim C4. -/

/-- C4: `getActiveProvider()` returns a provider exactly when the entry named
by `activeProvider` exists and is enabled; when the named provider is absent
or disabled it returns `none` rather than the provider or an error. -/
theorem getActiveProvider_iff (r : ProviderRegistry) (p : ProviderConfig) :
    getActiveProvider r = some p ↔
      lookupProvider r r.activeProvider = some p ∧ p.enabled = true := by
  unfold getActiveProvider
  cases hl : lookupProvider r r.activeProvider with
  | none => simp
  | some q =>
    dsimp only
    by_cases hq : q.enabled = true
    · rw [if_pos hq]
      constructor
      · intro h
        refine ⟨h, ?_⟩
        injection h with h2
        rw [← h2]
        exact hq
      · exact fun h => h.1
    · rw [if_neg hq]
      constructor
      · intro h
        cases h
      · rintro ⟨h1, h2⟩
        injection h1 with h1
        rw [h1] at hq
        exact absurd h2 hq

/-- C4 witness: the enabled active provider of `regAB` is returned; the
disabled active provider of `regAllDisabled` yields `none`. -/
theorem getActiveProvider_iff_witness :
    getActiveProvider regAB = some cfgA ∧ getActiveProvider regAllDisabled = none :=
  ⟨(getActiveProvider_iff regAB cfgA).mpr ⟨by decide, by decide⟩, by decide⟩

/-! Claim C5. -/

/-- C5: with an empty `apiKey`, `sendMessage` fails with `AuthenticationError`
and the transport flag is `false` — the HTTP layer is never invoked; the
result is moreover independent of the transport function. -/
theorem sendMessage_emptyKey (cfg : ZaiAPIConfig) (messages : List ZaiMessage)
    (transport transport2 : ZaiRequest → Except TransportError ZaiResponse)
    (h : cfg.apiKey = "") :
    sendMessage cfg messages transport =
      (.error (.authenticationError "Z.ai API key is required"), false) ∧
    sendMessage cfg messages transport = sendMessage cfg messages transport2 := by
  unfold sendMessage
  rw [if_pos h, if_pos h]
  exact ⟨rfl, rfl⟩

/-- C5 witness: the empty-key configuration with a concrete transport stub. -/
theorem sendMessage_emptyKey_witness :
    cfgEmptyKey.apiKey = "" ∧
    sendMessage cfgEmptyKey [] transportStub =
      (.error (.authenticationError "Z.ai API key is required"), false) :=
  ⟨rfl, (sendMessage_emptyKey cfgEmptyKey [] transportStub transportStub rfl).1⟩

end ClaudeFlow

namespace ClaudeFlow

/-! Claim C6. -/

/-- C6 counterexample: a transport error whose message contains `429` but also
`unauthorized` is classified as `AuthenticationError`, not `RateLimitError` —
the `401`/`unauthorized` check runs first, so "message contains 429 implies
RateLimitError" is false as a universal statement. -/
theorem handleAPIError_counterexample :
    containsSub errBothMarkers.message "429" = true ∧
    handleAPIError errBothMarkers = .authenticationError "Invalid Z.ai API key" := by
  refine ⟨?_, ?_⟩ <;> decide

/-- C6 (amended): the classification is a first-match priority chain — an
aborted request (`name = "AbortError"`) maps to `TimeoutError`; otherwise a
message containing `401` or `unauthorized` maps to `AuthenticationError`;
otherwise a message containing `429` or `rate limit` maps to
`RateLimitError`. Each error is classified to exactly one type (the function
is total and single-valued). -/
theorem handleAPIError_priority_chain (e1 e2 e3 : TransportError)
    (h1 : e1.name = "AbortError")
    (h2n : ¬ e2.name = "AbortError")
    (h2 : containsSub e2.message "401" = true ∨ containsSub e2.message "unauthorized" = true)
    (h3n : ¬ e3.name = "AbortError")
    (h3a : containsSub e3.message "401" = false)
    (h3b : containsSub e3.message "unauthorized" = false)
    (h3 : containsSub e3.message "429" = true ∨ containsSub e3.message "rate limit" = true) :
    handleAPIError e1 = .timeoutError "Request timed out" ∧
    handleAPIError e2 = .authenticationError "Invalid Z.ai API key" ∧
    handleAPIError e3 = .rateLimitError "Z.ai API rate limit exceeded" := by
  refine ⟨?_, ?_, ?_⟩
  · unfold handleAPIError
    rw [if_pos h1]
  · unfold handleAPIError
    rw [if_neg h2n]
    have hor : (containsSub e2.message "401" || containsSub e2.message "unauthorized") = true := by
      rcases h2 with h | h <;> simp [h]
    rw [if_pos hor]
  · unfold handleAPIError
    rw [if_neg h3n]
    have hno : ¬ (containsSub e3.message "401" || containsSub e3.message "unauthorized") = true := by
      simp [h3a, h3b]
    rw [if_neg hno]
    have hor : (containsSub e3.message "429" || containsSub e3.message "rate limit") = true := by
      rcases h3 with h | h <;> simp [h]
    rw [if_pos hor]

/-- C6 witness: a concrete aborted request, a concrete HTTP 401 and a concrete
HTTP 429 classify to `TimeoutError`, `AuthenticationError` and
`RateLimitError` respectively. -/
theorem handleAPIError_priority_chain_witness :
    errAbort.name = "AbortError" ∧
    containsSub errAuth.message "401" = true ∧
    containsSub errRate.message "429" = true ∧
    handleAPIError errAbort = .timeoutError "Request timed out" ∧
    handleAPIError errAuth = .authenticationError "Invalid Z.ai API key" ∧
    handleAPIError errRate = .rateLimitError "Z.ai API rate limit exceeded" := by
  have h := handleAPIError_priority_chain errAbort errAuth errRate (by decide) (by decide)
    (Or.inl (by decide)) (by decide) (by decide) (by decide) (Or.inl (by decide))
  exact ⟨by decide, by decide, by decide, h.1, h.2.1, h.2.2⟩

/-! Claim C7. -/

/-- C7 counterexample: with the API key `*` (non-empty), the mask
`****...****` itself contains the key as a substring, so the output of
`getConfig` does contain the configured key — the literal-substring
hyperproperty fails for keys that occur inside the placeholder. -/
theorem getConfig_star_counterexample :
    ¬ cfgStarKey.apiKey = "" ∧
    (getConfig cfgStarKey).apiKey = some "****...****" ∧
    (maskedStrings (getConfig cfgStarKey)).any
      (fun s => containsSub s cfgStarKey.apiKey) = true := by
  refine ⟨?_, ?_, ?_⟩ <;> decide

/-- C7 (amended): for every non-empty key, `getConfig` replaces the `apiKey`
field by the fixed placeholder `****...****`; consequently the key appears
nowhere in the output provided it is not a substring of the placeholder or of
the other configured string fields (`apiUrl`, `model`, `systemPrompt`). -/
theorem getConfig_masks_key (cfg : ZaiAPIConfig)
    (hne : ¬ cfg.apiKey = "")
    (hmask : containsSub "****...****" cfg.apiKey = false)
    (hurl : containsSub cfg.apiUrl cfg.apiKey = false)
    (hmodel : containsSub cfg.model cfg.apiKey = false)
    (hsys : ∀ s, cfg.systemPrompt = some s → containsSub s cfg.apiKey = false) :
    (getConfig cfg).apiKey = some "****...****" ∧
    ∀ s ∈ maskedStrings (getConfig cfg), containsSub s cfg.apiKey = false := by
  have hk : (getConfig cfg).apiKey = some "****...****" := by
    unfold getConfig
    dsimp only
    rw [if_neg hne]
  have hms : maskedStrings (getConfig cfg) =
      "****...****" :: cfg.apiUrl :: cfg.model ::
        (match cfg.systemPrompt with | some t => [t] | none => []) := by
    unfold maskedStrings getConfig
    dsimp only
    rw [if_neg hne]
    rfl
  refine ⟨hk, ?_⟩
  intro s hs
  rw [hms] at hs
  rcases List.mem_cons.mp hs with rfl | hs
  · exact hmask
  rcases List.mem_cons.mp hs with rfl | hs
  · exact hurl
  rcases List.mem_cons.mp hs with rfl | hs
  · exact hmodel
  cases hsp : cfg.systemPrompt with
  | none =>
    rw [hsp] at hs
    exact absurd hs (List.not_mem_nil s)
  | some t =>
    rw [hsp] at hs
    have hst := List.mem_singleton.mp hs
    rw [hst]
    exact hsys t hsp

/-- C7 witness: a realistic key never appears in the `getConfig` output. -/
theorem getConfig_masks_key_witness :
    ¬ cfgRealistic.apiKey = "" ∧
    (getConfig cfgRealistic).apiKey = some "****...****" ∧
    ∀ s ∈ maskedStrings (getConfig cfgRealistic),
      containsSub s cfgRealistic.apiKey = false := by
  have h := getConfig_masks_key cfgRealistic (by decide) (by decide) (by decide) (by decide)
    (fun s hs => Option.noConfusion hs)
  exact ⟨by decide, h.1, h.2⟩

end ClaudeFlow

namespace ClaudeFlow

/-! Claim C8. -/

/-- C8: a line equal to `data: [DONE]` terminates the chunk sequence — no
chunk is delivered for that line, no subsequent line is processed, and the
call completes (the delivered chunks are exactly those of the preceding
lines); and a `data: ` line whose payload fails to parse is skipped without
delivering a chunk and without aborting the rest of the stream. -/
theorem processLines_done_and_skip (parse : String → Option ZaiStreamEvent)
    (pre post : List String) (line s : String) (rest : List String)
    (hpre : ∀ l ∈ pre, ¬ dataPayload l = some "[DONE]")
    (hline : dataPayload line = some s)
    (hs : ¬ s = "[DONE]")
    (hparse : parse s = none) :
    processLines parse (pre ++ "data: [DONE]" :: post) = processLines parse pre ∧
    processLines parse (line :: rest) = processLines parse rest := by
  constructor
  · have hdone : dataPayload "data: [DONE]" = some "[DONE]" := by decide
    induction pre with
    | nil =>
      rw [List.nil_append, processLines_cons_done parse _ post hdone]
      rfl
    | cons l pre2 ih =>
      have hl := hpre l (List.mem_cons_self _ _)
      have ih2 := ih fun x hx => hpre x (List.mem_cons_of_mem _ hx)
      rw [List.cons_append]
      cases hdl : dataPayload l with
      | none =>
        rw [processLines_cons_noData parse l _ hdl, processLines_cons_noData parse l _ hdl]
        exact ih2
      | some d =>
        have hd : ¬ d = "[DONE]" := by
          intro hdd
          rw [hdd] at hdl
          exact hl hdl
        cases hpd : parse d with
        | some ev =>
          rw [processLines_cons_parsed parse l d _ ev hdl hd hpd,
            processLines_cons_parsed parse l d _ ev hdl hd hpd, ih2]
        | none =>
          rw [processLines_cons_badParse parse l d _ hdl hd hpd,
            processLines_cons_badParse parse l d _ hdl hd hpd]
          exact ih2
  · exact processLines_cons_badParse parse line s rest hline hs hparse

/-- C8 witness: a concrete stream where the `[DONE]` sentinel cuts off a later
line and a malformed payload is skipped. -/
theorem processLines_done_and_skip_witness :
    (∀ l ∈ ["data: hello"], ¬ dataPayload l = some "[DONE]") ∧
    dataPayload "data: oops" = some "oops" ∧
    processLines parseNone (["data: hello"] ++ "data: [DONE]" :: ["data: world"]) =
      processLines parseNone ["data: hello"] ∧
    processLines parseNone ["data: oops"] = processLines parseNone [] := by
  have h := processLines_done_and_skip parseNone ["data: hello"] ["data: world"]
    "data: oops" "oops" [] (by decide) (by decide) (by decide) rfl
  exact ⟨by decide, by decide, h.1, h.2⟩

/-! Claim C9. -/

/-- C9: on a registry satisfying the validation invariants, feeding
`exportConfiguration()` into `importConfiguration()` on a fresh manager
reproduces the registry field-for-field; `exportConfiguration` is a deep
structural copy, i.e. the identity on the registry value (mutation
independence is immediate under value semantics). -/
theorem export_import_roundTrip (r : ProviderRegistry) (h : RegistryInvariant r) :
    exportConfiguration r = r ∧
    importConfiguration (exportConfiguration r) = r := by
  obtain ⟨h1, h2⟩ := h
  refine ⟨rfl, ?_⟩
  show validateProviders r = r
  rcases h2 with h2 | h2
  · cases hl : lookupProvider r r.activeProvider with
    | none =>
      rw [hl] at h2
      cases h2
    | some p =>
      rw [hl] at h2
      have hp : p.enabled = true := by
        injection h2
      exact validateProviders_fixed_of_activeEnabled r p h1 hl hp
  · exact validateProviders_fixed_of_allDisabled r h2

/-- C9 witness: the round trip at the concrete two-provider registry. -/
theorem export_import_roundTrip_witness :
    RegistryInvariant regAB ∧
    exportConfiguration regAB = regAB ∧
    importConfiguration (exportConfiguration regAB) = regAB := by
  have hinv : RegistryInvariant regAB := ⟨by decide, Or.inl (by decide)⟩
  have h := export_import_roundTrip regAB hinv
  exact ⟨hinv, h.1, h.2⟩

/-! Claim C10. -/

/-- C10: for a present provider, `setProviderApiKey(name, key)` always forces
`enabled = true` — including for `key = ""`, after which the registry holds an
enabled provider with an empty key, violating the "enabled implies non-empty
apiKey" invariant; the invariant is only re-established by the next
`validateProviders` pass, which downgrades that provider to `enabled = false`. -/
theorem setProviderApiKey_forces_enabled (r : ProviderRegistry) (name : String)
    (p : ProviderConfig) (h : lookupProvider r name = some p) :
    (∀ key, ∃ r2, setProviderApiKey r name key = .ok r2 ∧
      lookupProvider r2 name = some { p with apiKey := key, enabled := true }) ∧
    (∃ r2, setProviderApiKey r name "" = .ok r2 ∧
      lookupProvider r2 name = some { p with apiKey := "", enabled := true } ∧
      ¬ (∀ e ∈ r2.providers, e.2.enabled = true → ¬ e.2.apiKey = "") ∧
      lookupProvider (validateProviders r2) name =
        some { p with apiKey := "", enabled := false }) := by
  have h2 : lookupEntry r.providers name = some p := h
  have hgen : ∀ key, ∃ r2, setProviderApiKey r name key = .ok r2 ∧
      lookupProvider r2 name = some { p with apiKey := key, enabled := true } := by
    intro key
    unfold setProviderApiKey
    rw [h]
    dsimp only
    refine ⟨_, rfl, ?_⟩
    show lookupEntry
      (updateProvider r.providers name fun q => { q with apiKey := key, enabled := true }) name = _
    rw [lookupEntry_updateProvider_self, h2]
    rfl
  refine ⟨hgen, ?_⟩
  obtain ⟨r2, hok, hlook⟩ := hgen ""
  refine ⟨r2, hok, hlook, ?_, ?_⟩
  · intro hall
    have hmem := mem_of_lookupEntry_eq_some
      (show lookupEntry r2.providers name = some _ from hlook)
    exact hall _ hmem rfl rfl
  · show lookupEntry (validateProviders r2).providers name = _
    rw [validateProviders_providers, lookupEntry_disableKeyless]
    have hlook2 : lookupEntry r2.providers name =
        some { p with apiKey := "", enabled := true } := hlook
    rw [hlook2, Option.map_some']
    rw [if_pos ⟨rfl, rfl⟩]

/-- C10 witness: keying the disabled `zai` provider with the empty string
enables it with an empty key; the next validation pass disables it again. -/
theorem setProviderApiKey_forces_enabled_witness :
    lookupProvider regAllDisabled "zai" = some cfgZaiDisabled ∧
    (∀ key, ∃ r2, setProviderApiKey regAllDisabled "zai" key = .ok r2 ∧
      lookupProvider r2 "zai" = some { cfgZaiDisabled with apiKey := key, enabled := true }) ∧
    (∃ r2, setProviderApiKey regAllDisabled "zai" "" = .ok r2 ∧
      lookupProvider r2 "zai" = some { cfgZaiDisabled with apiKey := "", enabled := true } ∧
      ¬ (∀ e ∈ r2.providers, e.2.enabled = true → ¬ e.2.apiKey = "") ∧
      lookupProvider (validateProviders r2) "zai" =
        some { cfgZaiDisabled with apiKey := "", enabled := false }) :=
  ⟨by decide,
    (setProviderApiKey_forces_enabled regAllDisabled "zai" cfgZaiDisabled (by decide)).1,
    (setProviderApiKey_forces_enabled regAllDisabled "zai" cfgZaiDisabled (by decide)).2⟩

end ClaudeFlow
